import Mathlib

/- Shallow embedding of the data pipeline of src/app.py: centroid
extraction from a GeoJSON feature collection, the left merge of the
usage table with the centroid table, and the per-interaction selection
filter that produces the view model (rows, color range, title, zoom
target). Coordinates and usage percentages are modelled as rationals;
pandas missing values (NaN after a left merge) as Option. -/

/-- A coordinate pair [x, y] of a GeoJSON coordinate array; x is the
longitude, y the latitude. -/
structure Point where
  x : ℚ
  y : ℚ
deriving DecidableEq, Repr

/-- The geometry of a feature. The two handled types carry their
coordinate arrays (a polygon is a list of rings, a ring a list of
points); any other geometry type is collapsed to one constructor since
the code only inspects the type tag before skipping it. -/
inductive Geometry where
  | polygon (coords : List (List Point))
  | multiPolygon (coords : List (List (List Point)))
  | other
deriving DecidableEq, Repr

/-- A GeoJSON feature: the ISO_A3 property (absent when the key is
missing, modelling dict.get) and the geometry. -/
structure Feature where
  iso_a3 : Option String
  geometry : Geometry
deriving DecidableEq, Repr

/-- One row of the centroid table built by load_country_centroids. -/
structure Centroid where
  code : String
  lat : ℚ
  lon : ℚ
deriving DecidableEq, Repr

/-- Mean of the x coordinates of a ring: the first component of
np.mean(points, axis=0), unpacked into lon in the source. -/
def meanX (r : List Point) : ℚ := (r.map Point.x).sum / (r.length : ℚ)

/-- Mean of the y coordinates of a ring: the second component of
np.mean(points, axis=0), unpacked into lat in the source. -/
def meanY (r : List Point) : ℚ := (r.map Point.y).sum / (r.length : ℚ)

/-- The sort key len(p[0]) of the lambda in the source: the vertex count
of the exterior ring of a polygon. Totalized with headD for an empty
polygon, on which the Python expression p[0] would raise. -/
def exteriorLen (p : List (List Point)) : Nat := (p.headD []).length

/-- One comparison step of Python max: the candidate replaces the current
maximum only when its key is strictly greater, so on ties the earlier
element is kept. -/
def pick_larger (best q : List (List Point)) : List (List Point) :=
  if exteriorLen best < exteriorLen q then q else best

/-- Python max(coords, key=lambda p: len(p[0])): the first polygon whose
exterior ring has the maximal number of vertices (Python max keeps the
current maximum on ties, so the first maximal element wins). Returns
none on an empty list, where Python max would raise ValueError. -/
def main_polygon : List (List (List Point)) → Option (List (List Point))
  | [] => none
  | p :: ps => some (ps.foldl pick_larger p)

/-- The body of the feature loop of load_country_centroids: none when the
feature is skipped (ISO_A3 missing or empty, or unhandled geometry type),
otherwise the centroid appended for it. For a Polygon the coordinate
array itself is the main polygon; for a MultiPolygon the largest
constituent by exterior vertex count is chosen. The exterior ring is
main_polygon[0], totalized with headD (Python would raise on an empty
coordinate array). -/
def feature_centroid (f : Feature) : Option Centroid :=
  match f.iso_a3 with
  | none => none
  | some code =>
    if code = "" then none
    else
      match f.geometry with
      | Geometry.multiPolygon coords =>
        match main_polygon coords with
        | none => none
        | some mp => some { code := code, lat := meanY (mp.headD []), lon := meanX (mp.headD []) }
      | Geometry.polygon coords =>
        some { code := code, lat := meanY (coords.headD []), lon := meanX (coords.headD []) }
      | Geometry.other => none

/-- The full feature loop: each non-skipped feature appends one row to
the centroids list, in processing order. -/
def extract_centroids (features : List Feature) : List Centroid :=
  features.filterMap feature_centroid

/-- Outcome of opening and parsing data/raw/countries.geojson. -/
inductive GeoSource where
  | found (features : List Feature)
  | fileNotFound
  | parseError
deriving DecidableEq

/-- Result of load_country_centroids when it returns: the centroid table
and whether the st.error box was displayed. -/
structure LoadResult where
  centroids : List Centroid
  errorShown : Bool
deriving DecidableEq, Repr

/-- load_country_centroids: the try/except around open and json.load
catches only FileNotFoundError (st.error is shown and an empty table
returned); an exception raised by json.load on a file that exists but
does not parse is not caught and propagates, modelled as Except.error. -/
def load_country_centroids : GeoSource → Except String LoadResult
  | GeoSource.fileNotFound => Except.ok { centroids := [], errorShown := true }
  | GeoSource.parseError => Except.error "uncaught exception from json.load"
  | GeoSource.found fs => Except.ok { centroids := extract_centroids fs, errorShown := false }

/-- One row of the usage table produced by load_data (the Date column,
derived from Year only for labelling, is omitted). The usage value is
optional: a missing value in the CSV propagates as NaN. -/
structure UsageRecord where
  entity : String
  code : String
  year : Int
  usage : Option ℚ
deriving DecidableEq, Repr

/-- One row of inet_df after the merge step: the usage fields plus the
lat/lon columns, absent (NaN) when no centroid matched. -/
structure JoinedRecord where
  entity : String
  code : String
  year : Int
  usage : Option ℚ
  lat : Option ℚ
  lon : Option ℚ
deriving DecidableEq, Repr

/-- Attach an optional centroid to a usage record. -/
def mkJoined (u : UsageRecord) (c : Option Centroid) : JoinedRecord :=
  { entity := u.entity, code := u.code, year := u.year, usage := u.usage,
    lat := c.map Centroid.lat, lon := c.map Centroid.lon }

/-- The merge step of the pipeline: when the centroid table is empty the
merge is skipped and inet_df keeps no lat/lon data (an absent column is
modelled as all-none); otherwise pd.merge(inet_df, centroids_df,
on=Code, how=left): each left row produces one output row per matching
centroid row, or a single row with missing lat/lon when no centroid
matches. -/
def merge_centroids (inet : List UsageRecord) (cents : List Centroid) : List JoinedRecord :=
  if cents.isEmpty then inet.map (fun u => mkJoined u none)
  else inet.flatMap (fun u =>
    match cents.filter (fun c => decide (c.code = u.code)) with
    | [] => [mkJoined u none]
    | ms => ms.map (fun c => mkJoined u (some c)))

/-- pandas Series.min with skipna: none on an all-missing column. -/
def seriesMin : List ℚ → Option ℚ
  | [] => none
  | v :: vs => some (vs.foldl min v)

/-- pandas Series.max with skipna: none on an all-missing column. -/
def seriesMax : List ℚ → Option ℚ
  | [] => none
  | v :: vs => some (vs.foldl max v)

/-- The fixed color range of the map: min and max of the Usage column of
the entire unfiltered inet_df. -/
def color_range (inet : List JoinedRecord) : Option ℚ × Option ℚ :=
  (seriesMin (inet.filterMap JoinedRecord.usage),
   seriesMax (inet.filterMap JoinedRecord.usage))

/-- The selection filter: the whole dataset for "All", otherwise the rows
whose Entity equals the selection. -/
def filtered_df (inet : List JoinedRecord) (selected_entity : String) : List JoinedRecord :=
  if selected_entity = "All" then inet
  else inet.filter (fun r => decide (r.entity = selected_entity))

/-- The dynamic map title. -/
def title_text (selected_entity : String) : String :=
  if selected_entity = "All" then "Internet Usage (% of population) by Country Over Time"
  else "Internet Usage in " ++ selected_entity ++ " (% of population) Over Time"

/-- filtered_df.dropna(subset=[lat, lon]): the rows with both
coordinates present. -/
def valid_geo_data (rows : List JoinedRecord) : List JoinedRecord :=
  rows.filter (fun r => r.lat.isSome && r.lon.isSome)

/-- The zoom step: fig.update_geos is called, centering on the first row
of valid_geo_data, only when an entity other than "All" is selected, the
filtered frame is non-empty and a row with valid coordinates exists;
otherwise no zoom target is set. The source reads the lat/lon cells of
that first row, present by construction (getD is never hit). -/
def update_geos (selected_entity : String) (rows : List JoinedRecord) : Option (ℚ × ℚ) :=
  if selected_entity ≠ "All" ∧ rows ≠ [] then
    match valid_geo_data rows with
    | [] => none
    | r :: _ => some (r.lat.getD 0, r.lon.getD 0)
  else none

/-- The view model handed to the rendering layer. -/
structure ViewModel where
  rows : List JoinedRecord
  vmColorRange : Option ℚ × Option ℚ
  vmTitle : String
  zoom_target : Option (ℚ × ℚ)
deriving DecidableEq, Repr

/-- One user interaction: filter by the selection, compute the fixed
color range from the unfiltered data, the title and the zoom target. -/
def view_model (inet : List JoinedRecord) (selected_entity : String) : ViewModel :=
  { rows := filtered_df inet selected_entity,
    vmColorRange := color_range inet,
    vmTitle := title_text selected_entity,
    zoom_target := update_geos selected_entity (filtered_df inet selected_entity) }

/- Concrete example data used by the witnesses and counterexamples. -/

/-- A triangle ring: x coordinates 0, 4, 0 and y coordinates 0, 0, 5. -/
def exRing3 : List Point := [⟨0, 0⟩, ⟨4, 0⟩, ⟨0, 5⟩]

/-- A polygon whose exterior ring has 3 vertices. -/
def exPoly3 : List (List Point) := [[⟨0, 0⟩, ⟨1, 0⟩, ⟨0, 1⟩]]

/-- A polygon whose exterior ring has 10 vertices. -/
def exPoly10 : List (List Point) :=
  [[⟨0, 0⟩, ⟨1, 0⟩, ⟨2, 0⟩, ⟨3, 0⟩, ⟨4, 0⟩, ⟨4, 1⟩, ⟨3, 1⟩, ⟨2, 1⟩, ⟨1, 1⟩, ⟨0, 1⟩]]

/-- A polygon whose exterior ring has 5 vertices. -/
def exPoly5 : List (List Point) := [[⟨0, 0⟩, ⟨1, 0⟩, ⟨2, 0⟩, ⟨2, 1⟩, ⟨0, 1⟩]]

/-- Auxiliary: the fold inside main_polygon returns the first element of
acc :: ps with maximal exteriorLen: the list decomposes around the result,
everything strictly before it has a strictly smaller key and everything
after it a key at most as large. -/
lemma foldl_pick_larger_spec (ps : List (List (List Point))) :
    ∀ acc : List (List Point),
      ∃ l1 l2,
        acc :: ps = l1 ++ (ps.foldl pick_larger acc) :: l2 ∧
        exteriorLen acc ≤ exteriorLen (ps.foldl pick_larger acc) ∧
        (∀ r ∈ l1, exteriorLen r < exteriorLen (ps.foldl pick_larger acc)) ∧
        (∀ r ∈ l2, exteriorLen r ≤ exteriorLen (ps.foldl pick_larger acc)) := by
  induction ps with
  | nil =>
    intro acc
    exact ⟨[], [], rfl, le_rfl, by simp, by simp⟩
  | cons q qs ih =>
    intro acc
    rw [List.foldl_cons]
    by_cases h : exteriorLen acc < exteriorLen q
    · have hstep : pick_larger acc q = q := by simp [pick_larger, h]
      rw [hstep]
      obtain ⟨l1, l2, hdec, hle, hl1, hl2⟩ := ih q
      refine ⟨acc :: l1, l2, ?_, ?_, ?_, hl2⟩
      · rw [List.cons_append, ← hdec]
      · exact le_of_lt (lt_of_lt_of_le h hle)
      · intro r hr
        rcases List.mem_cons.mp hr with h1 | h2
        · rw [h1]; exact lt_of_lt_of_le h hle
        · exact hl1 r h2
    · have hstep : pick_larger acc q = acc := by simp [pick_larger, h]
      rw [hstep]
      have hq : exteriorLen q ≤ exteriorLen acc := le_of_not_lt h
      obtain ⟨l1, l2, hdec, hle, hl1, hl2⟩ := ih acc
      cases l1 with
      | nil =>
        simp only [List.nil_append] at hdec
        have h1 : acc = qs.foldl pick_larger acc := (List.cons.injEq _ _ _ _).mp hdec |>.1
        have h2 : qs = l2 := (List.cons.injEq _ _ _ _).mp hdec |>.2
        refine ⟨[], q :: qs, ?_, hle, by simp, ?_⟩
        · rw [List.nil_append, ← h1]
        · intro r hr
          rcases List.mem_cons.mp hr with h3 | h4
          · rw [h3, ← h1]; exact hq
          · exact hl2 r (h2 ▸ h4)
      | cons a l1x =>
        simp only [List.cons_append] at hdec
        have h1 : acc = a := (List.cons.injEq _ _ _ _).mp hdec |>.1
        have h2 : qs = l1x ++ (qs.foldl pick_larger acc) :: l2 :=
          (List.cons.injEq _ _ _ _).mp hdec |>.2
        have hacc_lt : exteriorLen acc < exteriorLen (qs.foldl pick_larger acc) := by
          have ha := hl1 a (List.mem_cons_self a l1x)
          rw [← h1] at ha
          exact ha
        refine ⟨acc :: q :: l1x, l2, ?_, hle, ?_, hl2⟩
        · rw [List.cons_append, List.cons_append, ← h2]
        · intro r hr
          rcases List.mem_cons.mp hr with h3 | h4
          · rw [h3]; exact hacc_lt
          · rcases List.mem_cons.mp h4 with h5 | h6
            · rw [h5]; exact lt_of_le_of_lt hq hacc_lt
            · exact hl1 r (List.mem_cons_of_mem a h6)

/-- C1: for a feature with a non-empty ISO_A3 code and a Polygon geometry
with a non-empty exterior ring, the emitted centroid has lat equal to the
arithmetic mean of the y coordinates of the exterior (first) ring and lon
equal to the arithmetic mean of its x coordinates. -/
theorem C1_polygon_centroid_is_mean (code : String) (exterior : List Point)
    (holes : List (List Point)) (hcode : code ≠ "") (_hne : exterior ≠ []) :
    feature_centroid { iso_a3 := some code, geometry := Geometry.polygon (exterior :: holes) } =
      some { code := code,
             lat := (exterior.map Point.y).sum / (exterior.length : ℚ),
             lon := (exterior.map Point.x).sum / (exterior.length : ℚ) } := by
  simp [feature_centroid, hcode, meanX, meanY]

/-- Witness for C1 at a concrete triangle. -/
theorem C1_polygon_centroid_is_mean_witness :
    feature_centroid { iso_a3 := some "AFG", geometry := Geometry.polygon [exRing3] } =
      some { code := "AFG",
             lat := (exRing3.map Point.y).sum / (exRing3.length : ℚ),
             lon := (exRing3.map Point.x).sum / (exRing3.length : ℚ) } :=
  C1_polygon_centroid_is_mean "AFG" exRing3 [] (by decide) (by decide)

/-- C2: for a feature with a non-empty code and a MultiPolygon geometry,
the extractor picks among the constituent polygons the first one whose
exterior ring has the maximal vertex count (strictly more vertices than
every polygon before it, at least as many as every polygon after it), and
the emitted centroid is the mean of that exterior ring only. -/
theorem C2_multipolygon_picks_largest (code : String) (p : List (List Point))
    (ps : List (List (List Point))) (hcode : code ≠ "") :
    ∃ m l1 l2,
      main_polygon (p :: ps) = some m ∧
      p :: ps = l1 ++ m :: l2 ∧
      (∀ r ∈ l1, exteriorLen r < exteriorLen m) ∧
      (∀ r ∈ l2, exteriorLen r ≤ exteriorLen m) ∧
      feature_centroid { iso_a3 := some code, geometry := Geometry.multiPolygon (p :: ps) } =
        some { code := code, lat := meanY (m.headD []), lon := meanX (m.headD []) } := by
  obtain ⟨l1, l2, hdec, _hle, hl1, hl2⟩ := foldl_pick_larger_spec ps p
  refine ⟨ps.foldl pick_larger p, l1, l2, rfl, hdec, hl1, hl2, ?_⟩
  simp [feature_centroid, hcode, main_polygon]

/-- Witness for C2 at a MultiPolygon with exterior-ring sizes [3, 10, 5]:
the second polygon, with 10 vertices, is selected. -/
theorem C2_multipolygon_picks_largest_witness :
    main_polygon [exPoly3, exPoly10, exPoly5] = some exPoly10 ∧
    (∃ m l1 l2,
      main_polygon [exPoly3, exPoly10, exPoly5] = some m ∧
      [exPoly3, exPoly10, exPoly5] = l1 ++ m :: l2 ∧
      (∀ r ∈ l1, exteriorLen r < exteriorLen m) ∧
      (∀ r ∈ l2, exteriorLen r ≤ exteriorLen m) ∧
      feature_centroid { iso_a3 := some "FRA",
                         geometry := Geometry.multiPolygon [exPoly3, exPoly10, exPoly5] } =
        some { code := "FRA", lat := meanY (m.headD []), lon := meanX (m.headD []) }) :=
  ⟨by decide, C2_multipolygon_picks_largest "FRA" exPoly3 [exPoly10, exPoly5] (by decide)⟩

/-- A feature with code AAA and a triangular polygon around the origin. -/
def featureDupA : Feature :=
  { iso_a3 := some "AAA", geometry := Geometry.polygon [[⟨0, 0⟩, ⟨2, 0⟩, ⟨0, 2⟩]] }

/-- A second feature with the same code AAA and a different triangle. -/
def featureDupB : Feature :=
  { iso_a3 := some "AAA", geometry := Geometry.polygon [[⟨10, 10⟩, ⟨14, 10⟩, ⟨10, 14⟩]] }

/-- C6 counterexample: two features with the same ISO_A3 code produce two
centroid rows, not one — centroids.append with no keying by code means
there is no overwrite and no last-write-wins; a subsequent left merge
then duplicates the matching usage row. -/
theorem C6_counterexample_duplicate_codes :
    (extract_centroids [featureDupA, featureDupB]).map Centroid.code = ["AAA", "AAA"] ∧
    (extract_centroids [featureDupA, featureDupB]).length = 2 ∧
    ¬ ((extract_centroids [featureDupA, featureDupB]).map Centroid.code).Nodup ∧
    (merge_centroids [{ entity := "Aland", code := "AAA", year := 2010, usage := some 5 }]
        (extract_centroids [featureDupA, featureDupB])).length = 2 := by
  decide

/-- C6 (amended): the extractor appends one centroid row per non-skipped
feature, in processing order; a repeated code adds a further entry for
that code instead of overwriting the earlier one. -/
theorem C6_append_per_feature (fs : List Feature) (f : Feature) (c : Centroid)
    (h : feature_centroid f = some c) :
    extract_centroids (fs ++ [f]) = extract_centroids fs ++ [c] ∧
    ∀ k, ((extract_centroids (fs ++ [f])).filter (fun e => decide (e.code = k))).length =
      ((extract_centroids fs).filter (fun e => decide (e.code = k))).length +
        (if c.code = k then 1 else 0) := by
  constructor
  · simp [extract_centroids, List.filterMap_append, h]
  · intro k
    simp only [extract_centroids, List.filterMap_append, List.filterMap_cons, h,
      List.filterMap_nil, List.filter_append, List.length_append]
    by_cases hk : c.code = k <;> simp [hk]

/-- Witness for C6 at the two duplicate-code features. -/
theorem C6_append_per_feature_witness :
    extract_centroids [featureDupA, featureDupB] =
      extract_centroids [featureDupA] ++ [{ code := "AAA", lat := (34 : ℚ)/3, lon := (34 : ℚ)/3 }] :=
  (C6_append_per_feature [featureDupA] featureDupB
    { code := "AAA", lat := (34 : ℚ)/3, lon := (34 : ℚ)/3 }
    (by
      norm_num [feature_centroid, featureDupB, meanX, meanY]
      exact fun h => absurd h (by decide))).1

/-- C8: a feature whose ISO_A3 is missing or empty, and a feature whose
geometry type is neither Polygon nor MultiPolygon, is skipped silently:
no centroid is emitted for it. -/
theorem C8_skips_silently (f : Feature) :
    ((f.iso_a3 = none ∨ f.iso_a3 = some "") → feature_centroid f = none) ∧
    (f.geometry = Geometry.other → feature_centroid f = none) := by
  constructor
  · rintro (h | h) <;> simp [feature_centroid, h]
  · intro h
    cases hiso : f.iso_a3 with
    | none => simp [feature_centroid, hiso]
    | some code =>
      by_cases hc : code = "" <;> simp [feature_centroid, hiso, h, hc, ite_self]

/-- Five features, one of which lacks ISO_A3. -/
def exFeatures5 : List Feature :=
  [ { iso_a3 := some "AAA", geometry := Geometry.polygon [[⟨0, 0⟩, ⟨2, 0⟩, ⟨0, 2⟩]] },
    { iso_a3 := none, geometry := Geometry.polygon [[⟨0, 0⟩, ⟨2, 0⟩, ⟨0, 2⟩]] },
    { iso_a3 := some "BBB", geometry := Geometry.polygon [[⟨1, 1⟩, ⟨3, 1⟩, ⟨1, 3⟩]] },
    { iso_a3 := some "CCC", geometry :=
        Geometry.multiPolygon [[[⟨0, 0⟩, ⟨2, 0⟩, ⟨0, 2⟩]], [[⟨5, 5⟩, ⟨9, 5⟩, ⟨5, 9⟩, ⟨9, 9⟩]]] },
    { iso_a3 := some "DDD", geometry := Geometry.polygon [[⟨4, 4⟩, ⟨6, 4⟩, ⟨4, 6⟩]] } ]

/-- Witness for C8: the feature without ISO_A3 emits nothing, and the
five-feature collection with one missing code yields four centroids. -/
theorem C8_skips_silently_witness :
    feature_centroid { iso_a3 := none, geometry := Geometry.polygon [[⟨0, 0⟩, ⟨2, 0⟩, ⟨0, 2⟩]] } =
      none ∧
    (extract_centroids exFeatures5).length = 4 :=
  ⟨(C8_skips_silently _).1 (Or.inl rfl), by decide⟩

/-- C9 counterexample: on a geometry source that exists but cannot be
parsed, load_country_centroids does not return an empty table with a
warning — the json.load exception is uncaught and propagates, because
the except clause names only FileNotFoundError. -/
theorem C9_counterexample_parse_error :
    load_country_centroids GeoSource.parseError ≠
      Except.ok { centroids := [], errorShown := true } ∧
    load_country_centroids GeoSource.parseError =
      Except.error "uncaught exception from json.load" := by
  constructor
  · intro h
    simp [load_country_centroids] at h
  · rfl

/-- C9 (amended): only when the geometry source cannot be located does
the extractor recover: it returns an empty centroid table and shows the
user-visible error box, and the pipeline continues; a source that is
found is processed normally. -/
theorem C9_file_not_found_recovers :
    load_country_centroids GeoSource.fileNotFound =
      Except.ok { centroids := [], errorShown := true } ∧
    ∀ fs, load_country_centroids (GeoSource.found fs) =
      Except.ok { centroids := extract_centroids fs, errorShown := false } :=
  ⟨rfl, fun _ => rfl⟩

/-- Auxiliary: when the centroid codes are pairwise distinct, filtering
the centroid table by a key finds at most the unique matching row, the
one find? returns. -/
lemma filter_code_eq_find_toList (cents : List Centroid) (k : String)
    (h : (cents.map Centroid.code).Nodup) :
    cents.filter (fun c => decide (c.code = k)) =
      (cents.find? (fun c => decide (c.code = k))).toList := by
  induction cents with
  | nil => rfl
  | cons c cs ih =>
    rw [List.map_cons, List.nodup_cons] at h
    obtain ⟨hnotin, hnd⟩ := h
    by_cases hc : c.code = k
    · have hfilter : cs.filter (fun e => decide (e.code = k)) = [] := by
        rw [List.filter_eq_nil_iff]
        intro a ha
        simp only [decide_eq_true_eq]
        intro hak
        have hmem : a.code ∈ cs.map Centroid.code := List.mem_map_of_mem Centroid.code ha
        rw [hak, ← hc] at hmem
        exact hnotin hmem
      simp [List.filter_cons, List.find?_cons, hc, hfilter]
    · simp only [List.filter_cons, List.find?_cons, hc, decide_False]
      exact ih hnd

/-- C3: when the centroid table has pairwise distinct codes (as a table
keyed by country code), the merge is a left outer join: the output is
exactly the usage table, in order and without loss, each record extended
with the coordinates of the centroid matching its code when one exists
and with absent lat/lon otherwise; in particular the length is
preserved. -/
theorem C3_left_outer_join (inet : List UsageRecord) (cents : List Centroid)
    (h : (cents.map Centroid.code).Nodup) :
    merge_centroids inet cents =
      inet.map (fun u => mkJoined u (cents.find? (fun c => decide (c.code = u.code)))) ∧
    (merge_centroids inet cents).length = inet.length := by
  have hmain : merge_centroids inet cents =
      inet.map (fun u => mkJoined u (cents.find? (fun c => decide (c.code = u.code)))) := by
    unfold merge_centroids
    by_cases hempty : cents.isEmpty
    · rw [if_pos hempty]
      rw [List.isEmpty_iff.mp hempty]
      rfl
    · rw [if_neg hempty]
      induction inet with
      | nil => rfl
      | cons u us ih =>
        rw [List.flatMap_cons, List.map_cons]
        have hu : (match cents.filter (fun c => decide (c.code = u.code)) with
            | [] => [mkJoined u none]
            | ms => ms.map (fun c => mkJoined u (some c))) =
            [mkJoined u (cents.find? (fun c => decide (c.code = u.code)))] := by
          rw [filter_code_eq_find_toList cents u.code h]
          cases cents.find? (fun c => decide (c.code = u.code)) with
          | none => rfl
          | some c => rfl
        rw [hu, List.singleton_append, ih]
  exact ⟨hmain, by rw [hmain, List.length_map]⟩

/-- Three usage records with codes A, B, C. -/
def exUsageABC : List UsageRecord :=
  [ { entity := "Alpha", code := "A", year := 2010, usage := some 10 },
    { entity := "Beta", code := "B", year := 2011, usage := some 20 },
    { entity := "Gamma", code := "C", year := 2012, usage := some 30 } ]

/-- A centroid table with entries only for codes A and C. -/
def exCentsAC : List Centroid :=
  [ { code := "A", lat := 1, lon := 2 }, { code := "C", lat := 3, lon := 4 } ]

/-- Witness for C3: with centroids only for A and C, all three records
survive the join, the record for B with absent lat/lon. -/
theorem C3_left_outer_join_witness :
    (merge_centroids exUsageABC exCentsAC).length = 3 ∧
    merge_centroids exUsageABC exCentsAC =
      exUsageABC.map (fun u => mkJoined u (exCentsAC.find? (fun c => decide (c.code = u.code)))) ∧
    merge_centroids exUsageABC exCentsAC =
      [ { entity := "Alpha", code := "A", year := 2010, usage := some 10,
          lat := some 1, lon := some 2 },
        { entity := "Beta", code := "B", year := 2011, usage := some 20,
          lat := none, lon := none },
        { entity := "Gamma", code := "C", year := 2012, usage := some 30,
          lat := some 3, lon := some 4 } ] :=
  ⟨(C3_left_outer_join exUsageABC exCentsAC (by decide)).2,
   (C3_left_outer_join exUsageABC exCentsAC (by decide)).1,
   by decide⟩

/-- A joined dataset whose usage values are 0, 15 and 99.5. -/
def exC4 : List JoinedRecord :=
  [ { entity := "Alpha", code := "A", year := 2000, usage := some 0,
      lat := none, lon := none },
    { entity := "Beta", code := "B", year := 2001, usage := some 15,
      lat := some 1, lon := some 2 },
    { entity := "Gamma", code := "C", year := 2002, usage := some ((199 : ℚ)/2),
      lat := none, lon := none } ]

/-- C4: the color range of the view model is the min and max of the Usage
column of the whole unfiltered dataset, so it is the same for every
selection; on usage values 0, 15 and 99.5 it is (0, 99.5) whether the
selection is "All" or a specific entity. -/
theorem C4_color_range_independent_of_selection :
    (∀ (inet : List JoinedRecord) (s1 s2 : String),
      (view_model inet s1).vmColorRange = (view_model inet s2).vmColorRange) ∧
    (∀ (inet : List JoinedRecord) (s : String),
      (view_model inet s).vmColorRange =
        (seriesMin (inet.filterMap JoinedRecord.usage),
         seriesMax (inet.filterMap JoinedRecord.usage))) ∧
    (view_model exC4 "All").vmColorRange = (some 0, some ((199 : ℚ)/2)) ∧
    (view_model exC4 "Beta").vmColorRange = (some 0, some ((199 : ℚ)/2)) := by
  refine ⟨fun _ _ _ => rfl, fun _ _ => rfl, ?_, ?_⟩ <;>
    · show color_range exC4 = _
      norm_num [color_range, exC4, seriesMin, seriesMax, List.filterMap_cons,
        min_def, max_def]

/-- C5: for a selection other than "All", the zoom target is absent when
no row of the filtered frame has both coordinates, and otherwise it is
the lat/lon pair of the first row with valid coordinates; for the
selection "All" the zoom target is always absent. -/
theorem C5_zoom_target (inet : List JoinedRecord) (selected_entity : String)
    (h : selected_entity ≠ "All") :
    (view_model inet "All").zoom_target = none ∧
    (valid_geo_data (filtered_df inet selected_entity) = [] →
      (view_model inet selected_entity).zoom_target = none) ∧
    (∀ r rest, valid_geo_data (filtered_df inet selected_entity) = r :: rest →
      ∃ la lo, r.lat = some la ∧ r.lon = some lo ∧
        (view_model inet selected_entity).zoom_target = some (la, lo)) := by
  refine ⟨?_, ?_, ?_⟩
  · simp [view_model, update_geos]
  · intro hempty
    by_cases hf : filtered_df inet selected_entity = []
    · simp [view_model, update_geos, hf]
    · simp [view_model, update_geos, h, hf, hempty]
  · intro r rest hv
    have hf : filtered_df inet selected_entity ≠ [] := by
      intro hnil
      rw [hnil] at hv
      simp [valid_geo_data] at hv
    have hr : r ∈ valid_geo_data (filtered_df inet selected_entity) := by
      rw [hv]; exact List.mem_cons_self r rest
    have hpred := (List.mem_filter.mp hr).2
    rw [Bool.and_eq_true] at hpred
    obtain ⟨la, hla⟩ := Option.isSome_iff_exists.mp hpred.1
    obtain ⟨lo, hlo⟩ := Option.isSome_iff_exists.mp hpred.2
    refine ⟨la, lo, hla, hlo, ?_⟩
    simp [view_model, update_geos, h, hf, hv, hla, hlo]

/-- The joined dataset of the scenario in the spec: two Afghanistan rows
with coordinates and one World row without. -/
def exInet : List JoinedRecord :=
  [ { entity := "Afghanistan", code := "AFG", year := 2010, usage := some 5,
      lat := some 33, lon := some 65 },
    { entity := "Afghanistan", code := "AFG", year := 2015, usage := some 10,
      lat := some 33, lon := some 65 },
    { entity := "World", code := "OWID_WRL", year := 2015, usage := some 40,
      lat := none, lon := none } ]

/-- Witness for C5: selecting World, whose rows have no coordinates,
yields no zoom target; selecting Afghanistan zooms to its centroid. -/
theorem C5_zoom_target_witness :
    (view_model exInet "World").zoom_target = none ∧
    (view_model exInet "Afghanistan").zoom_target = some (33, 65) :=
  ⟨(C5_zoom_target exInet "World" (by decide)).2.1 (by decide), by decide⟩

/-- C7: with an empty centroid table the merge step is skipped and is a
pass-through: every usage record survives unchanged, with both
coordinate columns absent, and the length is preserved. -/
theorem C7_empty_centroid_table (inet : List UsageRecord) :
    merge_centroids inet [] =
      inet.map (fun u =>
        { entity := u.entity, code := u.code, year := u.year, usage := u.usage,
          lat := none, lon := none }) ∧
    (merge_centroids inet []).length = inet.length := by
  constructor
  · rfl
  · show (inet.map _).length = inet.length
    exact List.length_map inet _

/-- C10: for a selection other than "All", the entity filter is
idempotent, returns a subsequence of the dataset (no record modified,
none invented) and keeps exactly the records whose entity equals the
selection. -/
theorem C10_filter_idempotent_subsequence (inet : List JoinedRecord)
    (selected_entity : String) (h : selected_entity ≠ "All") :
    filtered_df (filtered_df inet selected_entity) selected_entity =
      filtered_df inet selected_entity ∧
    (filtered_df inet selected_entity).Sublist inet ∧
    (∀ r, r ∈ filtered_df inet selected_entity ↔
      r ∈ inet ∧ r.entity = selected_entity) := by
  refine ⟨?_, ?_, ?_⟩
  · simp [filtered_df, h, List.filter_filter]
  · simp only [filtered_df, if_neg h]
    exact List.filter_sublist inet
  · intro r
    simp [filtered_df, h, List.mem_filter]

/-- Witness for C10 on the example dataset with the Afghanistan
selection. -/
theorem C10_filter_idempotent_subsequence_witness :
    filtered_df (filtered_df exInet "Afghanistan") "Afghanistan" =
      filtered_df exInet "Afghanistan" ∧
    (filtered_df exInet "Afghanistan").Sublist exInet :=
  ⟨(C10_filter_idempotent_subsequence exInet "Afghanistan" (by decide)).1,
   (C10_filter_idempotent_subsequence exInet "Afghanistan" (by decide)).2.1⟩
